import Mathlib

/-!
Shallow embedding of `src/main.py`: a Flask service that fetches a same-day
snapshot and a daily OHLCV history for one Hong-Kong equity, assembles the
series, derives indicators (RSI_6, SMA 5/10/20/60, MACD 12/26/9), and scores
the latest row with a fixed rule table.

Modelling conventions.
* Python floats are modelled as rationals `ℚ`; field division is total in `ℚ`,
  so theorems about the two divisions in the source carry positivity
  hypotheses where Python would raise `ZeroDivisionError`.
* Indicator cells may be NaN (leading rows shorter than a lookback window);
  a cell is `Option ℚ`, `none` standing for NaN, and every NaN comparison is
  false, exactly as in IEEE/pandas (`nanLt`, `nanGt` below).
* `df.iloc[-2]` raises `IndexError` on a one-row frame; fallible steps live in
  `Except String`, which also models the enclosing `try/except` of
  `analyze_stock` (the caught exception's message is the `.error` payload).
* Python's `str.startswith` is modelled on the character list of the string
  (`strStartsWith`), which agrees with it and reduces by computation.
* `round(x, n)` (decimal rounding of a binary float) is modelled by rational
  rounding to `n` decimal places (`roundN`); no claim depends on half-way
  behaviour.
* The indicator library (`pandas_ta`) and the data provider (`akshare`) are
  external collaborators, not repository code: the library enters as an
  abstract column-producing function, and the provider as a `FetchOutcome`.
-/

namespace MyStock

/-- Real-time snapshot fields extracted from the provider row (lines 25-30 of
`src/main.py`): latest price `最新价`, cumulative traded amount `成交额`,
cumulative traded volume `成交量`, percent change `涨跌幅`, and turnover rate
`换手率` (0 when the column is absent). -/
structure Spot where
  latest_price : ℚ
  latest_amount : ℚ
  latest_volume : ℚ
  latest_chg_pct : ℚ
  turnover_rate : ℚ
deriving DecidableEq

/-- Lines 33-36: intraday VWAP. When cumulative volume is positive it is
amount / volume; otherwise it falls back to the latest price, so the division
by volume is only ever performed on the positive-volume branch of the `if`. -/
def vwap_price (s : Spot) : ℚ :=
  if s.latest_volume > 0 then s.latest_amount / s.latest_volume else s.latest_price

/-- Line 38: percentage deviation of the latest price from VWAP
(`((latest_price - vwap_price) / vwap_price) * 100`). -/
def vwap_bias (s : Spot) : ℚ :=
  ((s.latest_price - vwap_price s) / vwap_price s) * 100

/-- One historical daily bar (`日期/开盘/最高/最低/收盘/成交量`), dates as
integers (days). `opn` renders the `开盘` column (`open` is a Lean keyword). -/
structure Bar where
  date : ℤ
  opn : ℚ
  high : ℚ
  low : ℚ
  close : ℚ
  volume : ℚ
deriving DecidableEq

/-- Lines 50-57: the synthetic "today" row built from the snapshot —
open/high/low/close are all the latest price, volume is the snapshot volume. -/
def new_row (today : ℤ) (s : Spot) : Bar :=
  { date := today, opn := s.latest_price, high := s.latest_price,
    low := s.latest_price, close := s.latest_price, volume := s.latest_volume }

/-- Lines 46-48: if the fetched history is non-empty and its last bar's date
equals today, that last bar is removed (`df_hist = df_hist.iloc[:-1]`). -/
def dropTodayLast (today : ℤ) (hist : List Bar) : List Bar :=
  match hist.getLast? with
  | some b => if b.date = today then hist.dropLast else hist
  | none => hist

/-- Line 58: the assembled series `df_final` — the (possibly trimmed) history
with the synthetic today row appended. -/
def assembleSeries (today : ℤ) (s : Spot) (hist : List Bar) : List Bar :=
  dropTodayLast today hist ++ [new_row today s]

/-- One row of the indicator frame `df_final` as consumed by the analysis
(lines 77 onward): the volume column plus the derived indicator cells, each of
which may be NaN (`none`) on rows shorter than its lookback window. -/
structure Row where
  volume : ℚ
  RSI_6 : Option ℚ
  MA_5 : Option ℚ
  MA_10 : Option ℚ
  MA_20 : Option ℚ
  MA_60 : Option ℚ
  MACD : Option ℚ
  MACD_SIGNAL : Option ℚ
  MACD_HIST : Option ℚ
deriving DecidableEq

/-- A `<` comparison between possibly-NaN cells: false whenever either side is
NaN, as in pandas/IEEE floats. -/
def nanLt (a b : Option ℚ) : Bool :=
  match a, b with
  | some x, some y => decide (x < y)
  | _, _ => false

/-- A `>` comparison between possibly-NaN cells: false whenever either side is
NaN. -/
def nanGt (a b : Option ℚ) : Bool :=
  match a, b with
  | some x, some y => decide (y < x)
  | _, _ => false

/-- Python's `t.startswith(p)`, modelled on the character lists so it reduces
by computation. -/
def strStartsWith (t p : String) : Bool :=
  p.data.isPrefixOf t.data

/-- Lines 86-94: trend classification of the latest row, returning the pair
(trend label, downward-pressure label). The Python chained comparison
`a < b < c` is `(a < b) and (b < c)`, each conjunct false on NaN. -/
def trendCalc (latest : Row) : String × String :=
  if nanLt latest.MA_5 latest.MA_10 && nanLt latest.MA_10 latest.MA_20 then
    ("📉 空头排列 (主跌浪)", "极高")
  else if nanGt latest.MA_5 latest.MA_10 && nanGt latest.MA_10 latest.MA_20 then
    ("📈 多头排列 (上升趋势)", "低")
  else
    ("〰️ 震荡整理", "中")

/-- Python's `df.iloc[-2]`: the second-to-last row, raising pandas'
`IndexError` message when the frame has fewer than two rows. -/
def iloc_neg2 (df : List Row) : Except String Row :=
  if h : 2 ≤ df.length then
    .ok (df.get ⟨df.length - 2, by omega⟩)
  else
    .error "single positional indexer is out-of-bounds"

/-- Lines 97-104: momentum classification. `iloc[-2]` is only evaluated when
the first branch failed and `MACD_HIST > 0` held (Python short-circuits the
`and`), so its possible `IndexError` only escapes on that path. -/
def momentumCalc (latest : Row) (df : List Row) : Except String String :=
  if nanLt latest.MACD_HIST (some 0) && nanLt latest.MACD latest.MACD_SIGNAL then
    .ok "🟢 空头动能增强 (加速下跌)"
  else if nanGt latest.MACD_HIST (some 0) then do
    let prev ← iloc_neg2 df
    if nanLt latest.MACD_HIST prev.MACD_HIST then
      .ok "⚠️ 多头动能衰减 (上涨乏力)"
    else
      .ok "🔴 多头占优"
  else
    .ok "⚪ 动能不明"

/-- Lines 107-118: the score accumulator — starts at 0, +3 when
`vwap_bias < -2.5`, +2 when `RSI_6 < 20` (false on NaN), -2 when the trend
label starts with `📉`. -/
def scoreOf (bias : ℚ) (latest : Row) (trend : String) : ℤ :=
  (if bias < -2.5 then 3 else 0) +
  (if nanLt latest.RSI_6 (some 20) then 2 else 0) +
  (if strStartsWith trend "📉" then -2 else 0)

/-- Lines 83 and 117-119: the risk label — initialised `中`, overwritten with
`高 (逆势)` exactly when the bearish-trend score branch fires. -/
def riskOf (trend : String) : String :=
  if strStartsWith trend "📉" then "高 (逆势)" else "中"

/-- Lines 121-126: the advice mapping over the final score. -/
def adviceOf (score : ℤ) : String :=
  if score ≥ 3 then "⚡️ 激进买入 (博反弹)"
  else if score ≥ 1 then "👀 密切观察"
  else "🛑 观望/规避"

/-- Lines 111-116: reason strings appended for each positive trigger. -/
def reasonsOf (bias : ℚ) (latest : Row) : List String :=
  (if bias < -2.5 then ["分时极度超跌(黄金坑)"] else []) ++
  (if nanLt latest.RSI_6 (some 20) then ["RSI严重超卖"] else [])

/-- Line 155: `" + ".join(reasons) if reasons else "无特殊信号"`. -/
def joinedReasons (rs : List String) : String :=
  if rs = [] then "无特殊信号" else String.intercalate " + " rs

/-- Lines 130-134: selling-pressure label. `iloc[-2]` is only evaluated when
the panic branch failed and `latest_chg_pct < 0` held. -/
def sellingCalc (s : Spot) (df : List Row) : Except String String :=
  if s.latest_chg_pct < -3 ∧ s.turnover_rate > 1 then
    .ok "🔥 恐慌性抛售 (放量大跌)"
  else if s.latest_chg_pct < 0 then do
    let prev ← iloc_neg2 df
    if s.latest_volume < prev.volume then .ok "阴跌 (无量下跌)" else .ok "正常"
  else
    .ok "正常"

/-- Python's `round(x, n)`: rational rounding to `n` decimal places (the
source rounds binary floats to decimal places; no claim depends on half-way
behaviour). -/
def roundN (q : ℚ) (n : ℕ) : ℚ :=
  (⌊q * 10 ^ n + 1 / 2⌋ : ℚ) / 10 ^ n

/-- The JSON result dictionary of lines 136-157. -/
structure AnalysisResult where
  symbol : String
  price : ℚ
  change_pct : ℚ
  vwap_bias : ℚ
  rsi : Option ℚ
  ma20 : Option ℚ
  macd_bar : Option ℚ
  trend : String
  momentum : String
  pressure : String
  downside_risk : String
  advice : String
  risk : String
  reasons : String
deriving DecidableEq

/-- Lines 136-157: the result dictionary, given the already-classified
momentum and pressure labels. NaN indicator cells pass through `round`
unchanged (`Option.map`). -/
def buildResult (symbol : String) (s : Spot) (latest : Row)
    (momentum pressure : String) : AnalysisResult :=
  { symbol := symbol
    price := s.latest_price
    change_pct := roundN s.latest_chg_pct 2
    vwap_bias := roundN (vwap_bias s) 2
    rsi := latest.RSI_6.map (fun q => roundN q 2)
    ma20 := latest.MA_20.map (fun q => roundN q 3)
    macd_bar := latest.MACD_HIST.map (fun q => roundN q 4)
    trend := (trendCalc latest).1
    momentum := momentum
    pressure := pressure
    downside_risk := (trendCalc latest).2
    advice := adviceOf (scoreOf (vwap_bias s) latest (trendCalc latest).1)
    risk := riskOf (trendCalc latest).1
    reasons := joinedReasons (reasonsOf (vwap_bias s) latest) }

/-- Lines 77-158: the analysis core over the indicator frame — extract the
latest row (`iloc[-1]`), classify momentum and selling pressure (each may
raise through `iloc[-2]`), and build the result. An `.error` is an exception
caught by the enclosing `try/except`. -/
def analyzeCore (symbol : String) (s : Spot) (df : List Row) :
    Except String AnalysisResult :=
  match df.getLast? with
  | none => .error "single positional indexer is out-of-bounds"
  | some latest =>
    (momentumCalc latest df).bind fun momentum =>
      (sellingCalc s df).map fun pressure =>
        buildResult symbol s latest momentum pressure

/-- What the two provider calls of lines 18-42 can produce for a request: the
symbol is absent from the snapshot table, some fetch raised, or both calls
succeeded with a snapshot and a history. -/
inductive FetchOutcome where
  | notFound
  | raised (msg : String)
  | found (s : Spot) (hist : List Bar)

/-- Line 22: the user-facing not-found message. -/
def notFoundMsg : String := "未找到该股票或代码错误 (请使用5位代码如 02556)"

/-- Lines 15-162: `analyze_stock`. The Python function returns the pair
`(result, None)` on success and `(None, message)` on any failure (symbol not
found, or any exception caught by the `try/except`); exactly one component is
ever populated, which `Except String AnalysisResult` captures. `indicators`
is the external `pandas_ta` column computation applied to the assembled
series. -/
def analyze_stock (indicators : List Bar → List Row) (today : ℤ)
    (symbol : String) (fetch : FetchOutcome) : Except String AnalysisResult :=
  match fetch with
  | .notFound => .error notFoundMsg
  | .raised msg => .error msg
  | .found s hist => analyzeCore symbol s (indicators (assembleSeries today s hist))

/-- The JSON HTTP response of lines 164-173. -/
structure HttpResponse where
  status : String
  message : Option String
  data : Option AnalysisResult
  httpCode : ℕ
deriving DecidableEq

/-- Line 167: the default `code` query parameter. -/
def defaultCode : String := "02556"

/-- Lines 164-173: the `/api/analyze` route — an error becomes
`{"status": "error", "message": ...}` with HTTP 500 and no data; a result
becomes `{"status": "success", "data": ...}` with HTTP 200. -/
def api_analyze (indicators : List Bar → List Row) (today : ℤ)
    (code : String) (fetch : FetchOutcome) : HttpResponse :=
  match analyze_stock indicators today code fetch with
  | .error msg => { status := "error", message := some msg, data := none, httpCode := 500 }
  | .ok data => { status := "success", message := none, data := some data, httpCode := 200 }

/-- Modelled from the spec: the repository's second scoring service
`get_realtime_factor` (spec 4.6) is not present under `src/`; only the spec
describes it. Score accumulation faithful to the spec's words: +3 if
bias < -2.0, +2 if RSI6 < 20, +1 if Bollinger %B < 0. -/
def get_realtime_factor_score (bias rsi6 percentB : ℚ) : ℤ :=
  (if bias < -2 then 3 else 0) +
  (if rsi6 < 20 then 2 else 0) +
  (if percentB < 0 then 1 else 0)

/-- Modelled from the spec: the advice mapping of `get_realtime_factor`
(spec 4.6) — score ≥ 4 excellent entry, score ≥ 2 watch for rebound, else
wait/consolidating; this variant carries no trend/momentum/pressure labels. -/
def get_realtime_factor_advice (score : ℤ) : String :=
  if score ≥ 4 then "excellent entry (resonance)"
  else if score ≥ 2 then "watch for rebound"
  else "wait/consolidating"

/-! Shared helper lemmas and concrete sample inputs used by several claims. -/

/-- The bearish trend label starts with the emoji tested on line 117. -/
lemma bear_starts : strStartsWith "📉 空头排列 (主跌浪)" "📉" = true := by decide

/-- The bullish trend label does not start with the bearish emoji. -/
lemma bull_not_starts : strStartsWith "📈 多头排列 (上升趋势)" "📉" = false := by decide

/-- The consolidating trend label does not start with the bearish emoji. -/
lemma flat_not_starts : strStartsWith "〰️ 震荡整理" "📉" = false := by decide

/-- Binding a successful `Except` computation just applies the continuation. -/
lemma except_bind_ok {α β : Type} (a : α) (f : α → Except String β) :
    (Except.ok a : Except String α).bind f = f a := rfl

/-- Mapping over a successful `Except` computation applies the function. -/
lemma except_map_ok {α β : Type} (a : α) (f : α → β) :
    Except.map f (Except.ok a : Except String α) = .ok (f a) := rfl

/-- The monadic bind of a successful `Except` computation, as produced by
`do` notation, applies the continuation. -/
lemma bind_ok_eq {α β : Type} (a : α) (f : α → Except String β) :
    (do let x ← (Except.ok a : Except String α); f x) = f a := rfl

/-- Decomposition of a successful run of the analysis core: there is a latest
row, a momentum label and a pressure label, and the result is the built
dictionary. -/
lemma analyzeCore_ok_parts {symbol : String} {s : Spot} {df : List Row}
    {r : AnalysisResult} (hok : analyzeCore symbol s df = .ok r) :
    ∃ latest momentum pressure, df.getLast? = some latest ∧
      momentumCalc latest df = .ok momentum ∧ sellingCalc s df = .ok pressure ∧
      r = buildResult symbol s latest momentum pressure := by
  cases hl : df.getLast? with
  | none => simp [analyzeCore, hl] at hok
  | some latest =>
    cases hm : momentumCalc latest df with
    | error e => simp [analyzeCore, hl, hm, Except.bind] at hok
    | ok momentum =>
      cases hp : sellingCalc s df with
      | error e => simp [analyzeCore, hl, hm, hp, Except.bind, Except.map] at hok
      | ok pressure =>
        simp only [analyzeCore, hl, hm, hp, except_bind_ok, except_map_ok,
          Except.ok.injEq] at hok
        exact ⟨latest, momentum, pressure, rfl, hm, rfl, hok.symm⟩

/-- The advice mapping, case by case over the final score. -/
lemma adviceOf_cases (sc : ℤ) :
    (adviceOf sc = "⚡️ 激进买入 (博反弹)" ↔ 3 ≤ sc) ∧
    (adviceOf sc = "👀 密切观察" ↔ 1 ≤ sc ∧ sc < 3) ∧
    (adviceOf sc = "🛑 观望/规避" ↔ sc < 1) := by
  unfold adviceOf
  split_ifs with h1 h2 <;> refine ⟨⟨fun hx => ?_, fun hx => ?_⟩,
    ⟨fun hx => ?_, fun hx => ?_⟩, ⟨fun hx => ?_, fun hx => ?_⟩⟩ <;>
    first
      | rfl
      | omega
      | (exact absurd hx (by decide))

/-- When the frame has at least two rows, the selling-pressure step never
raises. -/
lemma sellingCalc_ok (s : Spot) (df : List Row) (hlen : 2 ≤ df.length) :
    ∃ p, sellingCalc s df = .ok p := by
  obtain ⟨prev, hprev⟩ : ∃ prev, iloc_neg2 df = .ok prev :=
    ⟨_, by unfold iloc_neg2; rw [dif_pos hlen]⟩
  unfold sellingCalc
  rw [hprev]
  split_ifs with hA hB
  · exact ⟨_, rfl⟩
  · simp only [bind_ok_eq]
    split_ifs <;> exact ⟨_, rfl⟩
  · exact ⟨_, rfl⟩

/-- A row whose indicator cells are all NaN, as produced for a series shorter
than every lookback window. -/
def rowNone : Row :=
  { volume := 5, RSI_6 := none, MA_5 := none, MA_10 := none, MA_20 := none,
    MA_60 := none, MACD := none, MACD_SIGNAL := none, MACD_HIST := none }

/-- A sample snapshot: price 97, amount 100, volume 1, so VWAP is 100 and the
bias is exactly -3. -/
def spotW : Spot :=
  { latest_price := 97, latest_amount := 100, latest_volume := 1,
    latest_chg_pct := 0, turnover_rate := 0 }

/-- The snapshot's bias evaluates to -3. -/
lemma spotW_bias : vwap_bias spotW = -3 := by
  norm_num [vwap_bias, vwap_price, spotW]

/-- C2: when cumulative volume is positive, VWAP is cumulative amount divided
by cumulative volume and the sign of the bias matches the sign of
(latest price - VWAP); when volume is zero, VWAP falls back to the latest
price and the bias is exactly 0 — the division by volume lives only on the
positive-volume branch of the `if` in `vwap_price`, so it is never performed
on the volume = 0 path. Positivity of amount (resp. of the price on the
zero-volume path) is assumed because `ℚ` division is total while Python's
would raise on a zero denominator in the bias expression. -/
theorem c2_vwap (s : Spot) :
    (0 < s.latest_volume → 0 < s.latest_amount →
      vwap_price s = s.latest_amount / s.latest_volume ∧
      (0 < s.latest_price - vwap_price s → 0 < vwap_bias s) ∧
      (s.latest_price - vwap_price s < 0 → vwap_bias s < 0) ∧
      (s.latest_price - vwap_price s = 0 → vwap_bias s = 0)) ∧
    (s.latest_volume = 0 →
      vwap_price s = s.latest_price ∧ (0 < s.latest_price → vwap_bias s = 0)) := by
  constructor
  · intro hv ha
    have hvp : vwap_price s = s.latest_amount / s.latest_volume := by
      unfold vwap_price
      rw [if_pos hv]
    have hpos : 0 < vwap_price s := by
      rw [hvp]
      exact div_pos ha hv
    refine ⟨hvp, ?_, ?_, ?_⟩
    · intro h
      have h1 : 0 < (s.latest_price - vwap_price s) / vwap_price s := div_pos h hpos
      have h2 := mul_pos h1 (by norm_num : (0 : ℚ) < 100)
      simpa [vwap_bias] using h2
    · intro h
      have h1 : (s.latest_price - vwap_price s) / vwap_price s < 0 :=
        div_neg_of_neg_of_pos h hpos
      have h2 := mul_neg_of_neg_of_pos h1 (by norm_num : (0 : ℚ) < 100)
      simpa [vwap_bias] using h2
    · intro h
      simp [vwap_bias, h]
  · intro h0
    have hnv : ¬ (s.latest_volume > 0) := by
      rw [h0]
      exact lt_irrefl 0
    have hvp : vwap_price s = s.latest_price := by
      unfold vwap_price
      rw [if_neg hnv]
    exact ⟨hvp, fun _ => by simp [vwap_bias, hvp]⟩

/-- A sample snapshot for C2 with positive volume: price 2, amount 6,
volume 2, so VWAP is 3 and the bias is negative. -/
def spotC2a : Spot :=
  { latest_price := 2, latest_amount := 6, latest_volume := 2,
    latest_chg_pct := 0, turnover_rate := 0 }

/-- A sample snapshot for C2 with zero volume: VWAP falls back to the price
and the bias is 0. -/
def spotC2b : Spot :=
  { latest_price := 5, latest_amount := 0, latest_volume := 0,
    latest_chg_pct := 0, turnover_rate := 0 }

/-- Witness for C2 at concrete snapshots. -/
theorem c2_vwap_witness :
    vwap_price spotC2a = 3 ∧ vwap_bias spotC2a < 0 ∧
    vwap_price spotC2b = 5 ∧ vwap_bias spotC2b = 0 := by
  have h1 := (c2_vwap spotC2a).1 (by norm_num [spotC2a]) (by norm_num [spotC2a])
  have h2 := (c2_vwap spotC2b).2 (by norm_num [spotC2b])
  have hv3 : vwap_price spotC2a = 3 := by
    rw [h1.1]
    norm_num [spotC2a]
  refine ⟨hv3, ?_, ?_, ?_⟩
  · exact h1.2.2.1 (by rw [hv3]; norm_num [spotC2a])
  · rw [h2.1]
    norm_num [spotC2b]
  · exact h2.2 (by norm_num [spotC2b])

/-- C4: trend classification on the latest row — MA5 < MA10 < MA20 is the
bearish alignment with the highest downside-pressure value `极高`;
MA5 > MA10 > MA20 is the bullish alignment with the low value `低`; every
other ordering (equalities included, and NaN cells too, since NaN
comparisons are false) is consolidating with the medium value `中`. The two
concrete orderings of the claim are instances. -/
theorem c4_trend (l : Row) :
    (∀ a b c : ℚ, l.MA_5 = some a → l.MA_10 = some b → l.MA_20 = some c →
      (a < b → b < c → trendCalc l = ("📉 空头排列 (主跌浪)", "极高")) ∧
      (b < a → c < b → trendCalc l = ("📈 多头排列 (上升趋势)", "低")) ∧
      (¬(a < b ∧ b < c) → ¬(b < a ∧ c < b) → trendCalc l = ("〰️ 震荡整理", "中"))) ∧
    (l.MA_5 = some 10 → l.MA_10 = some 9 → l.MA_20 = some 8 →
      trendCalc l = ("📈 多头排列 (上升趋势)", "低")) ∧
    (l.MA_5 = some 8 → l.MA_10 = some 9 → l.MA_20 = some 10 →
      trendCalc l = ("📉 空头排列 (主跌浪)", "极高")) := by
  have key : ∀ a b c : ℚ, l.MA_5 = some a → l.MA_10 = some b → l.MA_20 = some c →
      (a < b → b < c → trendCalc l = ("📉 空头排列 (主跌浪)", "极高")) ∧
      (b < a → c < b → trendCalc l = ("📈 多头排列 (上升趋势)", "低")) ∧
      (¬(a < b ∧ b < c) → ¬(b < a ∧ c < b) → trendCalc l = ("〰️ 震荡整理", "中")) := by
    intro a b c h5 h10 h20
    refine ⟨?_, ?_, ?_⟩
    · intro hab hbc
      simp [trendCalc, nanLt, h5, h10, h20, hab, hbc]
    · intro hba hcb
      have h1 : ¬(a < b) := lt_asymm hba
      simp [trendCalc, nanLt, nanGt, h5, h10, h20, h1, hba, hcb]
    · intro hn1 hn2
      rcases not_and_or.mp hn1 with h | h <;> rcases not_and_or.mp hn2 with h' | h' <;>
        simp [trendCalc, nanLt, nanGt, h5, h10, h20, h, h']
  refine ⟨key, ?_, ?_⟩
  · intro h5 h10 h20
    exact (key 10 9 8 h5 h10 h20).2.1 (by norm_num) (by norm_num)
  · intro h5 h10 h20
    exact (key 8 9 10 h5 h10 h20).1 (by norm_num) (by norm_num)

/-- A latest row in bullish alignment: MA5 = 10 > MA10 = 9 > MA20 = 8. -/
def rowBull : Row :=
  { volume := 5, RSI_6 := some 50, MA_5 := some 10, MA_10 := some 9,
    MA_20 := some 8, MA_60 := none, MACD := none, MACD_SIGNAL := none,
    MACD_HIST := none }

/-- A latest row in bearish alignment: MA5 = 8 < MA10 = 9 < MA20 = 10. -/
def rowBear : Row :=
  { volume := 5, RSI_6 := some 15, MA_5 := some 8, MA_10 := some 9,
    MA_20 := some 10, MA_60 := none, MACD := none, MACD_SIGNAL := none,
    MACD_HIST := none }

/-- Witness for C4 at the two concrete orderings of the claim. -/
theorem c4_trend_witness :
    trendCalc rowBull = ("📈 多头排列 (上升趋势)", "低") ∧
    trendCalc rowBear = ("📉 空头排列 (主跌浪)", "极高") ∧
    trendCalc rowNone = ("〰️ 震荡整理", "中") := by
  refine ⟨(c4_trend rowBull).2.1 rfl rfl rfl, (c4_trend rowBear).2.2 rfl rfl rfl, ?_⟩
  simp [trendCalc, nanLt, nanGt, rowNone]

/-- C5: the second scoring service `get_realtime_factor` (absent from `src/`,
modelled from the spec): the score is +3 for bias < -2.0, +2 for RSI6 < 20,
+1 for Bollinger %B < 0, accumulated over exactly those three triggers, and
the advice is the excellent-entry label iff the score is at least 4, the
watch-for-rebound label iff it is 2 or 3, and the wait label otherwise; the
model carries no trend/momentum/pressure classification. -/
theorem c5_realtime_factor (bias rsi6 percentB : ℚ) :
    get_realtime_factor_score bias rsi6 percentB =
      (if bias < -2 then 3 else 0) + (if rsi6 < 20 then 2 else 0) +
      (if percentB < 0 then 1 else 0) ∧
    (∀ sc : ℤ,
      (get_realtime_factor_advice sc = "excellent entry (resonance)" ↔ 4 ≤ sc) ∧
      (get_realtime_factor_advice sc = "watch for rebound" ↔ 2 ≤ sc ∧ sc < 4) ∧
      (get_realtime_factor_advice sc = "wait/consolidating" ↔ sc < 2)) ∧
    (¬(bias < -2) → get_realtime_factor_score bias rsi6 percentB < 4) ∧
    (bias < -2 → rsi6 < 20 → percentB < 0 →
      get_realtime_factor_advice (get_realtime_factor_score bias rsi6 percentB) =
        "excellent entry (resonance)") := by
  have hadv : ∀ sc : ℤ,
      (get_realtime_factor_advice sc = "excellent entry (resonance)" ↔ 4 ≤ sc) ∧
      (get_realtime_factor_advice sc = "watch for rebound" ↔ 2 ≤ sc ∧ sc < 4) ∧
      (get_realtime_factor_advice sc = "wait/consolidating" ↔ sc < 2) := by
    intro sc
    unfold get_realtime_factor_advice
    split_ifs with h1 h2 <;> refine ⟨⟨fun hx => ?_, fun hx => ?_⟩,
      ⟨fun hx => ?_, fun hx => ?_⟩, ⟨fun hx => ?_, fun hx => ?_⟩⟩ <;>
      first
        | rfl
        | omega
        | (exact absurd hx (by decide))
  refine ⟨rfl, hadv, ?_, ?_⟩
  · intro hb
    unfold get_realtime_factor_score
    rw [if_neg hb]
    split_ifs <;> omega
  · intro hb hr hp
    have hs : get_realtime_factor_score bias rsi6 percentB = 6 := by
      unfold get_realtime_factor_score
      rw [if_pos hb, if_pos hr, if_pos hp]
      decide
    rw [hs]
    exact (hadv 6).1.mpr (by omega)

/-- Witness for C5 at concrete inputs: bias -3, RSI 15, %B -0.1 give score 6
and the excellent-entry label. -/
theorem c5_realtime_factor_witness :
    get_realtime_factor_advice (get_realtime_factor_score (-3) 15 (-1/10)) =
      "excellent entry (resonance)" ∧
    get_realtime_factor_score 0 15 (-1/10) < 4 := by
  constructor
  · exact (c5_realtime_factor (-3) 15 (-1/10)).2.2.2 (by norm_num) (by norm_num)
      (by norm_num)
  · exact (c5_realtime_factor 0 15 (-1/10)).2.2.1 (by norm_num)

/-- C6: error handling — a symbol absent from the snapshot table makes
`analyze_stock` return no result and the not-found message (an `.error`, not
an uncaught exception), and the HTTP response then has status `"error"` with
that message; any exception raised during fetch or computation is caught at
the top level and its message is returned in an `"error"`-status response
with HTTP code 500; and in every error case the response carries no data,
while logging is outside the model. -/
theorem c6_error_handling (indicators : List Bar → List Row) (today : ℤ)
    (code : String) :
    analyze_stock indicators today code .notFound = .error notFoundMsg ∧
    api_analyze indicators today code .notFound =
      { status := "error", message := some notFoundMsg, data := none, httpCode := 500 } ∧
    (∀ msg, api_analyze indicators today code (.raised msg) =
      { status := "error", message := some msg, data := none, httpCode := 500 }) ∧
    (∀ fetch, (api_analyze indicators today code fetch).status = "error" →
      (api_analyze indicators today code fetch).data = none ∧
      (api_analyze indicators today code fetch).httpCode = 500 ∧
      ∃ msg, analyze_stock indicators today code fetch = .error msg ∧
        (api_analyze indicators today code fetch).message = some msg) ∧
    (∀ fetch, (api_analyze indicators today code fetch).status = "success" →
      ∃ d, analyze_stock indicators today code fetch = .ok d ∧
        (api_analyze indicators today code fetch).data = some d ∧
        (api_analyze indicators today code fetch).message = none) := by
  refine ⟨rfl, rfl, fun msg => rfl, ?_, ?_⟩
  · intro fetch hst
    cases hres : analyze_stock indicators today code fetch with
    | error msg =>
      simp [api_analyze, hres]
    | ok d =>
      have hsucc : (api_analyze indicators today code fetch).status = "success" := by
        simp [api_analyze, hres]
      rw [hsucc] at hst
      exact absurd hst (by decide)
  · intro fetch hst
    cases hres : analyze_stock indicators today code fetch with
    | error msg =>
      have herr : (api_analyze indicators today code fetch).status = "error" := by
        simp [api_analyze, hres]
      rw [herr] at hst
      exact absurd hst (by decide)
    | ok d =>
      exact ⟨d, rfl, by simp [api_analyze, hres]⟩

/-- Witness for C6: the not-found and raised cases at a concrete
configuration. -/
theorem c6_error_handling_witness :
    api_analyze (fun _ => []) 0 defaultCode .notFound =
      { status := "error", message := some notFoundMsg, data := none, httpCode := 500 } ∧
    api_analyze (fun _ => []) 0 defaultCode (.raised "boom") =
      { status := "error", message := some "boom", data := none, httpCode := 500 } := by
  exact ⟨(c6_error_handling (fun _ => []) 0 defaultCode).2.1,
    (c6_error_handling (fun _ => []) 0 defaultCode).2.2.1 "boom"⟩

/-- C7: momentum classification in fixed order on the latest row — histogram
below 0 together with MACD below signal is bearish momentum strengthening;
otherwise a positive histogram smaller than the previous row's histogram is
bullish momentum fading; otherwise a positive histogram is bullish dominant;
otherwise the momentum is unclear. -/
theorem c7_momentum (df : List Row) (latest prev : Row)
    (hprev : iloc_neg2 df = .ok prev) (h m sg : ℚ)
    (hh : latest.MACD_HIST = some h) (hm : latest.MACD = some m)
    (hs : latest.MACD_SIGNAL = some sg) :
    (h < 0 → m < sg →
      momentumCalc latest df = .ok "🟢 空头动能增强 (加速下跌)") ∧
    (0 < h → ∀ ph, prev.MACD_HIST = some ph → h < ph →
      momentumCalc latest df = .ok "⚠️ 多头动能衰减 (上涨乏力)") ∧
    (0 < h → (∀ ph, prev.MACD_HIST = some ph → ph ≤ h) →
      momentumCalc latest df = .ok "🔴 多头占优") ∧
    (¬(h < 0 ∧ m < sg) → ¬(0 < h) →
      momentumCalc latest df = .ok "⚪ 动能不明") := by
  refine ⟨?_, ?_, ?_, ?_⟩
  · intro hneg hlt
    simp [momentumCalc, nanLt, hh, hm, hs, hneg, hlt]
  · intro hpos ph hph hshrink
    have hb1 : nanLt latest.MACD_HIST (some 0) = false := by
      rw [hh]
      simp [nanLt, not_lt.mpr (le_of_lt hpos)]
    have hb2 : nanGt latest.MACD_HIST (some 0) = true := by
      rw [hh]
      simp [nanGt, hpos]
    have hb3 : nanLt latest.MACD_HIST prev.MACD_HIST = true := by
      rw [hh, hph]
      simp [nanLt, hshrink]
    unfold momentumCalc
    rw [hprev]
    simp [hb1, hb2, hb3, bind_ok_eq]
  · intro hpos hge
    have hb1 : nanLt latest.MACD_HIST (some 0) = false := by
      rw [hh]
      simp [nanLt, not_lt.mpr (le_of_lt hpos)]
    have hb2 : nanGt latest.MACD_HIST (some 0) = true := by
      rw [hh]
      simp [nanGt, hpos]
    have hnl : nanLt latest.MACD_HIST prev.MACD_HIST = false := by
      rw [hh]
      cases hph : prev.MACD_HIST with
      | none => rfl
      | some ph => simp [nanLt, not_lt.mpr (hge ph hph)]
    unfold momentumCalc
    rw [hprev]
    simp [hb1, hb2, hnl, bind_ok_eq]
  · intro hno hnpos
    rcases not_and_or.mp hno with hc | hc <;>
      simp [momentumCalc, nanLt, nanGt, hh, hm, hs, hc, hnpos]

/-- A previous row with positive histogram 2, for the C7 witness. -/
def rowPrev : Row :=
  { volume := 9, RSI_6 := none, MA_5 := none, MA_10 := none, MA_20 := none,
    MA_60 := none, MACD := none, MACD_SIGNAL := none, MACD_HIST := some 2 }

/-- A latest row with histogram -1, MACD -2 below signal 1, for the C7
witness. -/
def rowMacd : Row :=
  { volume := 5, RSI_6 := none, MA_5 := none, MA_10 := none, MA_20 := none,
    MA_60 := none, MACD := some (-2), MACD_SIGNAL := some 1,
    MACD_HIST := some (-1) }

/-- Witness for C7: a concrete two-row frame lands in the
bearish-momentum-strengthening branch. -/
theorem c7_momentum_witness :
    momentumCalc rowMacd [rowPrev, rowMacd] = .ok "🟢 空头动能增强 (加速下跌)" := by
  exact (c7_momentum [rowPrev, rowMacd] rowMacd rowPrev rfl (-1) (-2) 1
    rfl rfl rfl).1 (by norm_num) (by norm_num)

/-- C8: the selling-pressure label in fixed order — panic selling when
change% < -3 and turnover rate > 1 (taking precedence even when the
drift-down condition also holds); otherwise drift-down when change% < 0 and
the snapshot volume is below the previous bar's volume; otherwise normal. -/
theorem c8_pressure (s : Spot) (df : List Row) (prev : Row)
    (hprev : iloc_neg2 df = .ok prev) :
    (s.latest_chg_pct < -3 → 1 < s.turnover_rate →
      sellingCalc s df = .ok "🔥 恐慌性抛售 (放量大跌)") ∧
    (¬(s.latest_chg_pct < -3 ∧ 1 < s.turnover_rate) → s.latest_chg_pct < 0 →
      s.latest_volume < prev.volume →
      sellingCalc s df = .ok "阴跌 (无量下跌)") ∧
    (¬(s.latest_chg_pct < -3 ∧ 1 < s.turnover_rate) →
      ¬(s.latest_chg_pct < 0 ∧ s.latest_volume < prev.volume) →
      sellingCalc s df = .ok "正常") := by
  refine ⟨?_, ?_, ?_⟩
  · intro h1 h2
    unfold sellingCalc
    rw [if_pos ⟨h1, h2⟩]
  · intro hA hB hC
    unfold sellingCalc
    rw [if_neg hA, if_pos hB, hprev]
    simp only [bind_ok_eq]
    rw [if_pos hC]
  · intro hA hBC
    unfold sellingCalc
    rw [if_neg hA]
    by_cases hB : s.latest_chg_pct < 0
    · rw [if_pos hB, hprev]
      simp only [bind_ok_eq]
      rw [if_neg (fun hC => hBC ⟨hB, hC⟩)]
    · rw [if_neg hB]

/-- A snapshot for the C8 witness: change -4% with turnover 2%, and volume
also below the previous bar's — panic selling must win. -/
def spotPanic : Spot :=
  { latest_price := 10, latest_amount := 50, latest_volume := 5,
    latest_chg_pct := -4, turnover_rate := 2 }

/-- Witness for C8: panic selling takes precedence over drift-down when both
conditions hold. -/
theorem c8_pressure_witness :
    sellingCalc spotPanic [rowPrev, rowMacd] = .ok "🔥 恐慌性抛售 (放量大跌)" ∧
    spotPanic.latest_chg_pct < 0 ∧ spotPanic.latest_volume < rowPrev.volume := by
  refine ⟨(c8_pressure spotPanic [rowPrev, rowMacd] rowPrev rfl).1
    (by norm_num [spotPanic]) (by norm_num [spotPanic]), ?_, ?_⟩
  · norm_num [spotPanic]
  · norm_num [spotPanic, rowPrev]

/-- Concrete successful run shared by the C1 and C9 witnesses: snapshot
`spotW` (bias -3) over the frame `[rowNone, rowBear]` (latest row bearish
with RSI 15). -/
lemma analyzeCore_sample :
    analyzeCore "02556" spotW [rowNone, rowBear] =
      .ok (buildResult "02556" spotW rowBear "⚪ 动能不明" "正常") := by
  have hlast : ([rowNone, rowBear] : List Row).getLast? = some rowBear := rfl
  have hm : momentumCalc rowBear [rowNone, rowBear] = .ok "⚪ 动能不明" := rfl
  have hs : sellingCalc spotW [rowNone, rowBear] = .ok "正常" := by
    unfold sellingCalc
    rw [if_neg (by norm_num [spotW]), if_neg (by norm_num [spotW])]
  simp [analyzeCore, hlast, hm, hs, except_bind_ok, except_map_ok]

/-- The bearish row's trend classification, used by witnesses. -/
lemma rowBear_trend : trendCalc rowBear = ("📉 空头排列 (主跌浪)", "极高") := by
  norm_num [trendCalc, nanLt, nanGt, rowBear]

/-- C1: in `analyze_stock`'s scoring, the score starts at 0 and accumulates
in fixed order (+3 for bias < -2.5, +2 for RSI_6 < 20, -2 for a bearish
trend label, which also switches the risk label to `高 (逆势)`); the advice
in the returned result is the aggressive-buy label iff the final score is at
least 3, the watch-closely label iff it is 1 or 2, and the avoid label
otherwise; and on any input with bias -3, RSI 15 and MA5 < MA10 < MA20 the
score is 3 with the aggressive-buy advice and the counter-trend risk. -/
theorem c1_score_advice (symbol : String) (s : Spot) (df : List Row)
    (latest : Row) (r : AnalysisResult) (hlast : df.getLast? = some latest)
    (hok : analyzeCore symbol s df = .ok r) :
    scoreOf (vwap_bias s) latest (trendCalc latest).1 =
      (if vwap_bias s < -2.5 then 3 else 0) +
      (if nanLt latest.RSI_6 (some 20) then 2 else 0) +
      (if strStartsWith (trendCalc latest).1 "📉" then -2 else 0) ∧
    (strStartsWith (trendCalc latest).1 "📉" = true → r.risk = "高 (逆势)") ∧
    (strStartsWith (trendCalc latest).1 "📉" = false → r.risk = "中") ∧
    (r.advice = "⚡️ 激进买入 (博反弹)" ↔
      3 ≤ scoreOf (vwap_bias s) latest (trendCalc latest).1) ∧
    (r.advice = "👀 密切观察" ↔
      1 ≤ scoreOf (vwap_bias s) latest (trendCalc latest).1 ∧
      scoreOf (vwap_bias s) latest (trendCalc latest).1 < 3) ∧
    (r.advice = "🛑 观望/规避" ↔
      scoreOf (vwap_bias s) latest (trendCalc latest).1 < 1) ∧
    (vwap_bias s = -3 → latest.RSI_6 = some 15 →
      ∀ a b c : ℚ, latest.MA_5 = some a → latest.MA_10 = some b →
        latest.MA_20 = some c → a < b → b < c →
        scoreOf (vwap_bias s) latest (trendCalc latest).1 = 3 ∧
        r.advice = "⚡️ 激进买入 (博反弹)" ∧ r.risk = "高 (逆势)") := by
  obtain ⟨latest', m, p, hl', hm, hp, hr⟩ := analyzeCore_ok_parts hok
  rw [hlast] at hl'
  obtain rfl : latest = latest' := by
    injection hl'
  have hadv : r.advice =
      adviceOf (scoreOf (vwap_bias s) latest (trendCalc latest).1) := by
    rw [hr]
    rfl
  have hrisk : r.risk = riskOf (trendCalc latest).1 := by
    rw [hr]
    rfl
  refine ⟨rfl, ?_, ?_, ?_, ?_, ?_, ?_⟩
  · intro hb
    rw [hrisk]
    simp [riskOf, hb]
  · intro hb
    rw [hrisk]
    simp [riskOf, hb]
  · rw [hadv]
    exact (adviceOf_cases _).1
  · rw [hadv]
    exact (adviceOf_cases _).2.1
  · rw [hadv]
    exact (adviceOf_cases _).2.2
  · intro hbias hrsi a b c h5 h10 h20 hab hbc
    have htr : trendCalc latest = ("📉 空头排列 (主跌浪)", "极高") := by
      simp [trendCalc, nanLt, h5, h10, h20, hab, hbc]
    have hsc : scoreOf (vwap_bias s) latest (trendCalc latest).1 = 3 := by
      rw [htr, hbias]
      unfold scoreOf
      rw [hrsi]
      norm_num [nanLt, bear_starts]
    refine ⟨hsc, ?_, ?_⟩
    · rw [hadv, hsc]
      rfl
    · rw [hrisk, htr]
      simp [riskOf, bear_starts]

/-- Witness for C1 at the concrete bias -3 / RSI 15 / bearish-trend input. -/
theorem c1_score_advice_witness :
    scoreOf (vwap_bias spotW) rowBear (trendCalc rowBear).1 = 3 ∧
    (buildResult "02556" spotW rowBear "⚪ 动能不明" "正常").advice =
      "⚡️ 激进买入 (博反弹)" ∧
    (buildResult "02556" spotW rowBear "⚪ 动能不明" "正常").risk = "高 (逆势)" := by
  exact (c1_score_advice "02556" spotW [rowNone, rowBear] rowBear _ rfl
    analyzeCore_sample).2.2.2.2.2.2 spotW_bias rfl 8 9 10 rfl rfl rfl
    (by norm_num) (by norm_num)

/-- C9 (implicit): whenever the analysis returns a result whose advice is
the aggressive-buy label, the bias trigger fired, i.e. vwap_bias < -2.5 —
the RSI trigger alone contributes at most +2 and the trend trigger only
subtracts, so score 3 is unreachable without the bias trigger. -/
theorem c9_aggressive_needs_bias (symbol : String) (s : Spot) (df : List Row)
    (r : AnalysisResult) (hok : analyzeCore symbol s df = .ok r)
    (hadv : r.advice = "⚡️ 激进买入 (博反弹)") :
    vwap_bias s < -2.5 := by
  obtain ⟨latest, m, p, hl, hm, hp, hr⟩ := analyzeCore_ok_parts hok
  have hA : adviceOf (scoreOf (vwap_bias s) latest (trendCalc latest).1) =
      "⚡️ 激进买入 (博反弹)" := by
    rw [← hadv, hr]
    rfl
  have h3 := (adviceOf_cases _).1.mp hA
  by_contra hb
  rw [not_lt] at hb
  unfold scoreOf at h3
  rw [if_neg (not_lt.mpr hb)] at h3
  split_ifs at h3 <;> omega

/-- Witness for C9: the concrete aggressive-buy run indeed has bias below
-2.5. -/
theorem c9_aggressive_needs_bias_witness : vwap_bias spotW < -2.5 := by
  have hadv : (buildResult "02556" spotW rowBear "⚪ 动能不明" "正常").advice =
      "⚡️ 激进买入 (博反弹)" := by
    have hsc : scoreOf (vwap_bias spotW) rowBear (trendCalc rowBear).1 = 3 := by
      rw [rowBear_trend, spotW_bias]
      unfold scoreOf
      norm_num [nanLt, rowBear, bear_starts]
    show adviceOf (scoreOf (vwap_bias spotW) rowBear (trendCalc rowBear).1) = _
    rw [hsc]
    rfl
  exact c9_aggressive_needs_bias "02556" spotW [rowNone, rowBear] _
    analyzeCore_sample hadv

/-- A snapshot with negative change% and zero volume, for the C10
counterexample. -/
def spotCX : Spot :=
  { latest_price := 10, latest_amount := 0, latest_volume := 0,
    latest_chg_pct := -1, turnover_rate := 0 }

/-- Counterexample to C10 as stated: on a one-row frame (an empty history
plus the synthetic today row — shorter than every lookback window, so all
indicator cells are NaN) with negative change%, the analysis does NOT return
a result: the selling-pressure step evaluates `df.iloc[-2]`, which raises,
and the caught exception is returned as an error. -/
theorem c10_counterexample :
    analyzeCore "02556" spotCX [rowNone] =
      .error "single positional indexer is out-of-bounds" := by
  have hlast : ([rowNone] : List Row).getLast? = some rowNone := rfl
  have hm : momentumCalc rowNone [rowNone] = .ok "⚪ 动能不明" := rfl
  have hs : sellingCalc spotCX [rowNone] =
      .error "single positional indexer is out-of-bounds" := by
    unfold sellingCalc
    rw [if_neg (by norm_num [spotCX]), if_pos (by norm_num [spotCX])]
    rfl
  simp only [analyzeCore, hlast, hm, except_bind_ok, hs]
  rfl

/-- C10 as amended: on a frame with at least two rows whose latest row has
all indicator cells NaN, every comparison against them evaluates false — the
trend is consolidating with medium downside pressure, the momentum unclear,
the RSI < 20 trigger does not fire (the score reduces to the bias trigger
alone) — and the analysis returns a result with the undefined cells passed
through into the result's indicator fields. -/
theorem c10_nan_degrades (symbol : String) (s : Spot) (df : List Row)
    (latest : Row) (hlen : 2 ≤ df.length) (hlast : df.getLast? = some latest)
    (h1 : latest.RSI_6 = none) (h2 : latest.MA_5 = none)
    (h3 : latest.MA_10 = none) (h4 : latest.MA_20 = none)
    (_h5 : latest.MACD = none) (_h6 : latest.MACD_SIGNAL = none)
    (h7 : latest.MACD_HIST = none) :
    trendCalc latest = ("〰️ 震荡整理", "中") ∧
    momentumCalc latest df = .ok "⚪ 动能不明" ∧
    nanLt latest.RSI_6 (some 20) = false ∧
    scoreOf (vwap_bias s) latest (trendCalc latest).1 =
      (if vwap_bias s < -2.5 then 3 else 0) ∧
    ∃ r, analyzeCore symbol s df = .ok r ∧ r.rsi = none ∧ r.ma20 = none ∧
      r.macd_bar = none ∧ r.trend = "〰️ 震荡整理" ∧
      r.momentum = "⚪ 动能不明" ∧ r.downside_risk = "中" := by
  have htr : trendCalc latest = ("〰️ 震荡整理", "中") := by
    simp [trendCalc, nanLt, nanGt, h2, h3, h4]
  have hmom : momentumCalc latest df = .ok "⚪ 动能不明" := by
    simp [momentumCalc, nanLt, nanGt, h7]
  have hnl : nanLt latest.RSI_6 (some 20) = false := by
    rw [h1]
    rfl
  have hsc : scoreOf (vwap_bias s) latest (trendCalc latest).1 =
      (if vwap_bias s < -2.5 then 3 else 0) := by
    rw [htr]
    unfold scoreOf
    simp [hnl, flat_not_starts]
  obtain ⟨p, hp⟩ := sellingCalc_ok s df hlen
  refine ⟨htr, hmom, hnl, hsc,
    buildResult symbol s latest "⚪ 动能不明" p, ?_, ?_, ?_, ?_, ?_, rfl, ?_⟩
  · simp [analyzeCore, hlast, hmom, hp, except_bind_ok, except_map_ok]
  · simp [buildResult, h1]
  · simp [buildResult, h4]
  · simp [buildResult, h7]
  · simp [buildResult, htr]
  · simp [buildResult, htr]

/-- Unfolding equation for `dropTodayLast` on a non-empty history. -/
lemma dropTodayLast_eq_some {today : ℤ} {hist : List Bar} {lb : Bar}
    (hl : hist.getLast? = some lb) :
    dropTodayLast today hist =
      if lb.date = today then hist.dropLast else hist := by
  unfold dropTodayLast
  rw [hl]

/-- Unfolding equation for `dropTodayLast` on an empty history. -/
lemma dropTodayLast_nil (today : ℤ) : dropTodayLast today [] = [] := rfl

/-- The trimmed history is a sublist of the fetched history. -/
lemma dropTodayLast_sub (today : ℤ) (hist : List Bar) :
    List.Sublist (dropTodayLast today hist) hist := by
  cases hl : hist.getLast? with
  | none =>
    rw [List.getLast?_eq_none_iff] at hl
    subst hl
    rw [dropTodayLast_nil]
  | some lb =>
    rw [dropTodayLast_eq_some hl]
    split_ifs
    · exact List.dropLast_sublist _
    · exact List.Sublist.refl _

/-- After the same-day trim, every remaining historical bar is strictly
before today, provided the fetched dates are strictly increasing and none is
in the future. -/
lemma dropTodayLast_dates_lt (today : ℤ) (hist : List Bar)
    (hsort : (hist.map Bar.date).Sorted (· < ·))
    (hle : ∀ b ∈ hist, b.date ≤ today) :
    ∀ b ∈ dropTodayLast today hist, b.date < today := by
  intro b hb
  cases hl : hist.getLast? with
  | none =>
    rw [List.getLast?_eq_none_iff] at hl
    subst hl
    rw [dropTodayLast_nil] at hb
    exact absurd hb (List.not_mem_nil b)
  | some lb =>
    rw [dropTodayLast_eq_some hl] at hb
    have hne : hist ≠ [] := by
      intro hnil
      subst hnil
      exact Option.noConfusion hl
    have hgl : hist.getLast hne = lb := by
      rw [List.getLast?_eq_getLast hist hne] at hl
      injection hl
    have hdec : hist.dropLast ++ [lb] = hist := by
      rw [← hgl]
      exact List.dropLast_concat_getLast hne
    have hdlt : ∀ x ∈ hist.dropLast, x.date < lb.date := by
      have hs2 : ((hist.dropLast ++ [lb]).map Bar.date).Sorted (· < ·) := by
        rw [hdec]
        exact hsort
      rw [List.map_append] at hs2
      have hpw := (List.pairwise_append.mp hs2).2.2
      intro x hx
      exact hpw x.date (List.mem_map_of_mem Bar.date hx) lb.date (by simp)
    by_cases hd : lb.date = today
    · rw [if_pos hd] at hb
      exact hd ▸ hdlt b hb
    · rw [if_neg hd] at hb
      have hble : b.date ≤ lb.date := by
        rw [← hdec] at hb
        rcases List.mem_append.mp hb with h | h
        · exact le_of_lt (hdlt b h)
        · rw [List.mem_singleton.mp h]
      have hlbmem : lb ∈ hist := by
        rw [← hdec]
        exact List.mem_append.mpr (Or.inr (List.mem_singleton.mpr rfl))
      have hlbt : lb.date < today := lt_of_le_of_ne (hle lb hlbmem) hd
      exact lt_of_le_of_lt hble hlbt

/-- C3: series assembly — if the fetched history is non-empty and its last
bar's date is today, that last bar is dropped (and only then); exactly one
synthetic bar carrying today's date is appended, whose open, high, low and
close are all the snapshot's latest price and whose volume is the snapshot
volume; and the assembled series has pairwise-distinct dates (one row per
calendar date), given that the provider's dates are strictly increasing with
none in the future. -/
theorem c3_assembly (today : ℤ) (s : Spot) (hist : List Bar)
    (hsort : (hist.map Bar.date).Sorted (· < ·))
    (hle : ∀ b ∈ hist, b.date ≤ today) :
    (∀ b, hist.getLast? = some b → b.date = today →
      assembleSeries today s hist = hist.dropLast ++ [new_row today s]) ∧
    (∀ b, hist.getLast? = some b → b.date ≠ today →
      assembleSeries today s hist = hist ++ [new_row today s]) ∧
    (new_row today s).date = today ∧
    (new_row today s).opn = s.latest_price ∧
    (new_row today s).high = s.latest_price ∧
    (new_row today s).low = s.latest_price ∧
    (new_row today s).close = s.latest_price ∧
    (new_row today s).volume = s.latest_volume ∧
    (assembleSeries today s hist).filter (fun b => decide (b.date = today)) =
      [new_row today s] ∧
    ((assembleSeries today s hist).map Bar.date).Nodup := by
  have hdlt := dropTodayLast_dates_lt today hist hsort hle
  refine ⟨?_, ?_, rfl, rfl, rfl, rfl, rfl, rfl, ?_, ?_⟩
  · intro b hl hd
    unfold assembleSeries
    rw [dropTodayLast_eq_some hl, if_pos hd]
  · intro b hl hd
    unfold assembleSeries
    rw [dropTodayLast_eq_some hl, if_neg hd]
  · unfold assembleSeries
    rw [List.filter_append]
    have h1 : (dropTodayLast today hist).filter
        (fun b => decide (b.date = today)) = [] := by
      rw [List.filter_eq_nil_iff]
      intro a ha
      simp [ne_of_lt (hdlt a ha)]
    have h2 : ([new_row today s].filter (fun b => decide (b.date = today))) =
        [new_row today s] := by
      simp [new_row]
    rw [h1, h2, List.nil_append]
  · have hsorted2 : ((dropTodayLast today hist).map Bar.date).Sorted (· < ·) :=
      List.Pairwise.sublist ((dropTodayLast_sub today hist).map Bar.date) hsort
    have hnodup1 : ((dropTodayLast today hist).map Bar.date).Nodup :=
      hsorted2.nodup
    unfold assembleSeries
    rw [List.map_append, List.nodup_append]
    refine ⟨hnodup1, by simp, ?_⟩
    intro x hx hx2
    simp only [List.map_cons, List.map_nil, List.mem_singleton, new_row] at hx2
    obtain ⟨a, ha, rfl⟩ := List.mem_map.mp hx
    exact absurd hx2 (ne_of_lt (hdlt a ha))

/-- An old bar dated 8, for the C3 witness. -/
def barOld : Bar :=
  { date := 8, opn := 1, high := 1, low := 1, close := 1, volume := 1 }

/-- A provider bar dated today (10), for the C3 witness. -/
def barToday : Bar :=
  { date := 10, opn := 2, high := 2, low := 2, close := 2, volume := 2 }

/-- A two-bar history whose last bar is dated today (10), for the C3
witness. -/
def histW : List Bar := [barOld, barToday]

/-- Witness for C3: the same-day bar is dropped, today's synthetic bar is
the unique bar dated today, and the assembled dates are pairwise
distinct. -/
theorem c3_assembly_witness :
    assembleSeries 10 spotW histW = histW.dropLast ++ [new_row 10 spotW] ∧
    (assembleSeries 10 spotW histW).filter (fun b => decide (b.date = 10)) =
      [new_row 10 spotW] ∧
    ((assembleSeries 10 spotW histW).map Bar.date).Nodup := by
  have h := c3_assembly 10 spotW histW (by decide) (by decide)
  exact ⟨h.1 barToday rfl rfl, h.2.2.2.2.2.2.2.2.1, h.2.2.2.2.2.2.2.2.2⟩

/-- Witness for the amended C10 at a concrete two-row all-NaN frame. -/
theorem c10_nan_degrades_witness :
    ∃ r, analyzeCore "02556" spotW [rowNone, rowNone] = .ok r ∧
      r.trend = "〰️ 震荡整理" ∧ r.rsi = none := by
  obtain ⟨-, -, -, -, r, hr, hrsi, -, -, htrend, -, -⟩ :=
    c10_nan_degrades "02556" spotW [rowNone, rowNone] rowNone (by decide)
      rfl rfl rfl rfl rfl rfl rfl rfl
  exact ⟨r, hr, htrend, hrsi⟩

end MyStock
